import Mathlib

/-!
Verification of the crocdb-api gateway (src/app.py): a shallow embedding of
the payload validator, the search and entry route handlers, and the global
error handler, together with theorems checking the specification claims.

JSON values are modelled by an inductive type; Python dynamic operations
(membership test `in`, subscription `data[k]`, `dict.get`, `isinstance`) are
modelled as functions that may raise, returning `Except PyExc`.
-/

namespace Crocdb

/-- A JSON value as produced by parsing a request body. Objects keep their
fields as an ordered association list (Python dicts preserve insertion
order). -/
inductive Json where
  | null : Json
  | bool (b : Bool) : Json
  | int (n : Int) : Json
  | str (s : String) : Json
  | arr (elems : List Json) : Json
  | obj (fields : List (String × Json)) : Json

/-- The Python runtime types used by the field-type mapping in src/app.py:
`str`, `list`, `int`. -/
inductive PType where
  | str : PType
  | list : PType
  | int : PType
deriving DecidableEq

/-- `expected_type.__name__` as used in the type-mismatch error message. -/
def PType.pyName : PType → String
  | .str => "str"
  | .list => "list"
  | .int => "int"

/-- Python `isinstance(v, t)` for the three types above. A Python `bool` is
a subclass of `int`, so booleans pass an `int` check. -/
def isinstance : Json → PType → Bool
  | .str _, .str => true
  | .arr _, .list => true
  | .int _, .int => true
  | .bool _, .int => true
  | _, _ => false

/-- A Python exception. `code` models the optional `code` attribute read by
`getattr(e, 'code', 500)` in the error handler (HTTP exceptions carry one,
built-in exceptions such as TypeError or AttributeError do not); `msg`
models the exception text, which must never reach the client. -/
structure PyExc where
  name : String
  msg : String
  code : Option Nat
deriving DecidableEq, Repr

/-- Modelled from the spec: `api.build_response` (the Envelope formatter)
lives in the repository module `api`, which is not under src/. Per the spec,
on the wire success responses are the raw payload object and error responses
are the `\x7berror: string\x7d` object itself, so the formatter is the
identity on the payload object. -/
def build_response (payload : Json) : Json := payload

/-- The error body `\x7b'error': msg\x7d` passed through `build_response`. -/
def errResp (msg : String) : Json :=
  build_response (Json.obj [("error", Json.str msg)])

/-- Lookup of a key in an object field list (Python dict lookup). -/
def lookupField (fields : List (String × Json)) (key : String) : Option Json :=
  match fields with
  | [] => none
  | (k, v) :: rest => if k = key then some v else lookupField rest key

/-- Python `key in xs` for a list `xs` and a string `key`: element equality;
a string compares equal only to the same string. -/
def arrContainsStr (elems : List Json) (key : String) : Bool :=
  elems.any fun x =>
    match x with
    | .str t => t = key
    | _ => false

/-- `sub` occurs at the head of `s`. -/
def isSubAt : List Char → List Char → Bool
  | [], _ => true
  | _ :: _, [] => false
  | c :: cs, d :: ds => c == d && isSubAt cs ds

/-- `sub` occurs somewhere in `s` (Python substring membership). -/
def hasSub (sub : List Char) : List Char → Bool
  | [] => isSubAt sub []
  | c :: rest => isSubAt sub (c :: rest) || hasSub sub rest

/-- Python `key in data`: key membership for a dict, element membership for
a list, substring test for a string; a TypeError for anything else. -/
def pyContains (data : Json) (key : String) : Except PyExc Bool :=
  match data with
  | .obj fields => .ok (lookupField fields key).isSome
  | .arr elems => .ok (arrContainsStr elems key)
  | .str s => .ok (hasSub key.toList s.toList)
  | _ => .error { name := "TypeError", msg := "argument is not iterable", code := none }

/-- Python `data[key]` for a string key: dict lookup (KeyError when absent);
a TypeError for lists, strings and scalars. -/
def pyIndex (data : Json) (key : String) : Except PyExc Json :=
  match data with
  | .obj fields =>
    match lookupField fields key with
    | some v => .ok v
    | none => .error { name := "KeyError", msg := key, code := none }
  | .arr _ => .error { name := "TypeError", msg := "list indices must be integers", code := none }
  | .str _ => .error { name := "TypeError", msg := "string indices must be integers", code := none }
  | _ => .error { name := "TypeError", msg := "object is not subscriptable", code := none }

/-- Python `data.get(key, dflt)`: only dicts have `.get`; anything else
raises AttributeError. -/
def dictGet (data : Json) (key : String) (dflt : Json) : Except PyExc Json :=
  match data with
  | .obj fields => .ok ((lookupField fields key).getD dflt)
  | _ => .error { name := "AttributeError", msg := "object has no attribute get", code := none }

/-- The list comprehension
`[field for field in required_fields if field not in data]` of
`validate_payload`: the required fields absent from `data`, in the order
given, where each membership test may raise. -/
def listMissing (required : List String) (data : Json) : Except PyExc (List String) :=
  match required with
  | [] => .ok []
  | f :: rest => do
    let mem ← pyContains data f
    let tail ← listMissing rest data
    if mem then pure tail else pure (f :: tail)

/-- The type-checking loop of `validate_payload`: iterate the field-type
mapping in order; for each field present in `data` whose value fails
`isinstance`, stop with the error body naming that field and type. -/
def checkTypes (data : Json) : List (String × PType) → Except PyExc (Option Json)
  | [] => .ok none
  | (f, t) :: rest => do
    let mem ← pyContains data f
    if mem then
      let v ← pyIndex data f
      if isinstance v t then checkTypes data rest
      else pure (some (errResp ("Field \"" ++ f ++ "\" must be of type " ++ t.pyName)))
    else checkTypes data rest

/-- `validate_payload(required_fields, data, field_types)` from src/app.py:
first collect all missing required fields and, when any, return the error
body listing them comma-joined; otherwise type-check fields present in the
body and return the first mismatch; `none` means the payload is valid. -/
def validate_payload (required_fields : List String) (data : Json)
    (field_types : List (String × PType)) : Except PyExc (Option Json) := do
  let missing ← listMissing required_fields data
  if missing.isEmpty then checkTypes data field_types
  else
    pure (some (errResp ("Missing required fields: " ++ String.intercalate ", " missing)))

/-- A call into the catalog backend module `api`, recorded with the exact
arguments the handler passes. -/
inductive ApiCall where
  | getSearch (search_key platforms regions rom_id max_results page : Json) : ApiCall
  | getEntry (slug : Json) (random : Bool) : ApiCall
  | getPlatforms : ApiCall
  | getRegions : ApiCall
  | getInfo : ApiCall

/-- What a route handler does with a request: return a response directly
(with a status), delegate to the catalog backend (whose result is returned
as the 200 response body unmodified), or let an exception escape to the
global error handler. -/
inductive Outcome where
  | response (body : Json) (status : Nat) : Outcome
  | backend (call : ApiCall) : Outcome
  | raise (e : PyExc) : Outcome

/-- The field-type mapping the `search` handler passes to
`validate_payload`, in source order. -/
def searchFieldTypes : List (String × PType) :=
  [("search_key", PType.str), ("platforms", PType.list), ("regions", PType.list),
   ("rom_id", PType.str), ("max_results", PType.int), ("page", PType.int)]

/-- The field extraction of the `search` handler after validation:
`data.get` with the defaults from src/app.py (absent optional fields give
`None`, `platforms`/`regions` give `[]`, `max_results` gives 100, `page`
gives 1). -/
def searchExtract (data : Json) : Except PyExc ApiCall := do
  let search_key ← dictGet data "search_key" Json.null
  let platforms ← dictGet data "platforms" (Json.arr [])
  let regions ← dictGet data "regions" (Json.arr [])
  let rom_id ← dictGet data "rom_id" Json.null
  let max_results ← dictGet data "max_results" (Json.int 100)
  let page ← dictGet data "page" (Json.int 1)
  pure (ApiCall.getSearch search_key platforms regions rom_id max_results page)

/-- The `search` route handler. The body argument is the result of
`request.get_json(force=True)`: `.error` means the body could not be parsed
as JSON. -/
def search (body : Except Unit Json) : Outcome :=
  match body with
  | .error _ => .response (errResp "Malformed JSON in request body") 400
  | .ok data =>
    match validate_payload [] data searchFieldTypes with
    | .error e => .raise e
    | .ok (some err) => .response err 400
    | .ok none =>
      match searchExtract data with
      | .error e => .raise e
      | .ok call => .backend call

/-- The field-type mapping of the `entry` handler. -/
def entryFieldTypes : List (String × PType) := [("slug", PType.str)]

/-- The `entry` route handler: requires `slug`, type-checks it as a string,
then delegates to `api.get_entry(slug=slug, random=False)`. -/
def entry (body : Except Unit Json) : Outcome :=
  match body with
  | .error _ => .response (errResp "Malformed JSON in request body") 400
  | .ok data =>
    match validate_payload ["slug"] data entryFieldTypes with
    | .error e => .raise e
    | .ok (some err) => .response err 400
    | .ok none =>
      match pyIndex data "slug" with
      | .error e => .raise e
      | .ok slug => .backend (ApiCall.getEntry slug false)

/-- The `entry/random` route handler. -/
def random_entry : Outcome := .backend (ApiCall.getEntry Json.null true)

/-- The `platforms` route handler. -/
def platforms : Outcome := .backend ApiCall.getPlatforms

/-- The `regions` route handler. -/
def regions : Outcome := .backend ApiCall.getRegions

/-- The `info` route handler. -/
def info : Outcome := .backend ApiCall.getInfo

/-- `http.HTTPStatus(code).phrase`: the standard phrase for a standard HTTP
status code; `none` models the ValueError `HTTPStatus` raises on a
non-standard code. -/
def httpStatusPhrase : Nat → Option String
  | 100 => some "Continue"
  | 101 => some "Switching Protocols"
  | 102 => some "Processing"
  | 103 => some "Early Hints"
  | 200 => some "OK"
  | 201 => some "Created"
  | 202 => some "Accepted"
  | 203 => some "Non-Authoritative Information"
  | 204 => some "No Content"
  | 205 => some "Reset Content"
  | 206 => some "Partial Content"
  | 207 => some "Multi-Status"
  | 208 => some "Already Reported"
  | 226 => some "IM Used"
  | 300 => some "Multiple Choices"
  | 301 => some "Moved Permanently"
  | 302 => some "Found"
  | 303 => some "See Other"
  | 304 => some "Not Modified"
  | 305 => some "Use Proxy"
  | 307 => some "Temporary Redirect"
  | 308 => some "Permanent Redirect"
  | 400 => some "Bad Request"
  | 401 => some "Unauthorized"
  | 402 => some "Payment Required"
  | 403 => some "Forbidden"
  | 404 => some "Not Found"
  | 405 => some "Method Not Allowed"
  | 406 => some "Not Acceptable"
  | 407 => some "Proxy Authentication Required"
  | 408 => some "Request Timeout"
  | 409 => some "Conflict"
  | 410 => some "Gone"
  | 411 => some "Length Required"
  | 412 => some "Precondition Failed"
  | 413 => some "Request Entity Too Large"
  | 414 => some "Request-URI Too Long"
  | 415 => some "Unsupported Media Type"
  | 416 => some "Requested Range Not Satisfiable"
  | 417 => some "Expectation Failed"
  | 418 => some "I\x27m a Teapot"
  | 421 => some "Misdirected Request"
  | 422 => some "Unprocessable Entity"
  | 423 => some "Locked"
  | 424 => some "Failed Dependency"
  | 425 => some "Too Early"
  | 426 => some "Upgrade Required"
  | 428 => some "Precondition Required"
  | 429 => some "Too Many Requests"
  | 431 => some "Request Header Fields Too Large"
  | 451 => some "Unavailable For Legal Reasons"
  | 500 => some "Internal Server Error"
  | 501 => some "Not Implemented"
  | 502 => some "Bad Gateway"
  | 503 => some "Service Unavailable"
  | 504 => some "Gateway Timeout"
  | 505 => some "HTTP Version Not Supported"
  | 506 => some "Variant Also Negotiates"
  | 507 => some "Insufficient Storage"
  | 508 => some "Loop Detected"
  | 510 => some "Not Extended"
  | 511 => some "Network Authentication Required"
  | _ => none

/-- `handle_error` from src/app.py: read the declared status (default 500);
on a 500 in debug mode re-raise; otherwise answer with the standard phrase
for the status. A non-standard declared status makes `HTTPStatus(code)`
itself raise, modelled by the ValueError branch. -/
def handle_error (debug : Bool) (e : PyExc) : Except PyExc (Json × Nat) :=
  let code := e.code.getD 500
  if code == 500 && debug then .error e
  else
    match httpStatusPhrase code with
    | some p => .ok (build_response (Json.obj [("error", Json.str p)]), code)
    | none => .error { name := "ValueError", msg := "not a valid HTTPStatus", code := none }

/-- `ratelimit_handler` from src/app.py: the dedicated 429 response. -/
def ratelimit_handler : Json × Nat :=
  (build_response (Json.obj [("error", Json.str "Too Many Requests")]), 429)

/-- Run a handler outcome to the final wire response, given the catalog
backend as an oracle: a delegated call returns the backend result unmodified
with status 200, and an escaped exception goes through `handle_error`. -/
def runHandler (api : ApiCall → Json) (debug : Bool) : Outcome → Except PyExc (Json × Nat)
  | .response b c => .ok (b, c)
  | .backend call => .ok (api call, 200)
  | .raise e => handle_error debug e

/-- Reduction of a bind on a successful Except value. -/
@[simp] theorem exceptOk_bind {ε : Type u} {α β : Type v} (a : α) (f : α → Except ε β) :
    (Except.ok a : Except ε α) >>= f = f a := rfl

/-- Reduction of a bind on a raised Except value. -/
@[simp] theorem exceptError_bind {ε : Type u} {α β : Type v} (e : ε) (f : α → Except ε β) :
    (Except.error e : Except ε α) >>= f = Except.error e := rfl

/-- `pure` in the Except monad is `Except.ok`. -/
@[simp] theorem exceptPure_eq_ok {ε : Type u} {α : Type v} (a : α) :
    (pure a : Except ε α) = Except.ok a := rfl

/-- On an object, the missing-field comprehension never raises and returns
exactly the required fields whose key is absent, in the order given. -/
theorem listMissing_obj (required : List String) (fields : List (String × Json)) :
    listMissing required (Json.obj fields) =
      .ok (required.filter fun f => (lookupField fields f).isNone) := by
  induction required with
  | nil => rfl
  | cons f rest ih =>
    cases h : lookupField fields f with
    | none => simp [listMissing, pyContains, ih, h, List.filter]
    | some v => simp [listMissing, pyContains, ih, h, List.filter]

/-- `validate_payload` on an object: report the absent required fields when
there are any, otherwise run the type checks. -/
theorem validate_payload_obj (required : List String) (fields : List (String × Json))
    (ftypes : List (String × PType)) :
    validate_payload required (Json.obj fields) ftypes =
      if (required.filter fun f => (lookupField fields f).isNone) = [] then
        checkTypes (Json.obj fields) ftypes
      else
        .ok (some (errResp ("Missing required fields: " ++
          String.intercalate ", " (required.filter fun f => (lookupField fields f).isNone)))) := by
  unfold validate_payload
  rw [listMissing_obj, exceptOk_bind]
  cases hc : required.filter fun f => (lookupField fields f).isNone with
  | nil => simp
  | cons a l => simp

/-- The type-checking loop stops at the first present field whose value
fails its `isinstance` check, whatever comes after it; fields before it that
are absent are skipped without being type-checked. -/
theorem checkTypes_first_mismatch (fields : List (String × Json))
    (pre post : List (String × PType)) (f : String) (t : PType) (v : Json)
    (hpre : ∀ p ∈ pre, ∀ w, lookupField fields p.1 = some w → isinstance w p.2 = true)
    (hv : lookupField fields f = some v) (hbad : isinstance v t = false) :
    checkTypes (Json.obj fields) (pre ++ (f, t) :: post) =
      .ok (some (errResp ("Field \"" ++ f ++ "\" must be of type " ++ t.pyName))) := by
  induction pre with
  | nil => simp [checkTypes, pyContains, pyIndex, hv, hbad, Except.bind]
  | cons p rest ih =>
    have hrest : ∀ q ∈ rest, ∀ w, lookupField fields q.1 = some w → isinstance w q.2 = true :=
      fun q hq => hpre q (List.mem_cons_of_mem _ hq)
    obtain ⟨g, u⟩ := p
    cases hg : lookupField fields g with
    | none => simp [checkTypes, pyContains, hg, Except.bind, ih hrest]
    | some w =>
      have hw : isinstance w u = true := hpre ⟨g, u⟩ (List.mem_cons_self _ _) w hg
      simp [checkTypes, pyContains, pyIndex, hg, hw, Except.bind, ih hrest]

/-- Lookup in an appended field list tries the first list, then the second. -/
theorem lookupField_append (fields extra : List (String × Json)) (k : String) :
    lookupField (fields ++ extra) k =
      match lookupField fields k with
      | some v => some v
      | none => lookupField extra k := by
  induction fields with
  | nil => simp [lookupField]
  | cons p rest ih =>
    obtain ⟨a, b⟩ := p
    by_cases hak : a = k
    · simp [lookupField, hak]
    · simp [lookupField, hak, ih]

/-- Lookup of a key matching no field gives nothing. -/
theorem lookupField_eq_none (extra : List (String × Json)) (k : String)
    (h : ∀ p ∈ extra, k ≠ p.1) : lookupField extra k = none := by
  induction extra with
  | nil => rfl
  | cons p rest ih =>
    obtain ⟨a, b⟩ := p
    have ha : a ≠ k := fun e => h ⟨a, b⟩ (List.mem_cons_self _ _) e.symm
    exact by simp [lookupField, ha, ih fun q hq => h q (List.mem_cons_of_mem _ hq)]

/-- Appending fields with fresh keys does not change lookup of other keys. -/
theorem lookupField_extend (fields extra : List (String × Json)) (k : String)
    (h : ∀ p ∈ extra, k ≠ p.1) :
    lookupField (fields ++ extra) k = lookupField fields k := by
  rw [lookupField_append, lookupField_eq_none extra k h]
  cases lookupField fields k <;> rfl

/-- The type-checking loop is unchanged by extending the object with fields
whose keys name no typed field. -/
theorem checkTypes_extend (fields extra : List (String × Json))
    (ftypes : List (String × PType))
    (h : ∀ p ∈ extra, ∀ q ∈ ftypes, p.1 ≠ q.1) :
    checkTypes (Json.obj (fields ++ extra)) ftypes = checkTypes (Json.obj fields) ftypes := by
  induction ftypes with
  | nil => rfl
  | cons q rest ih =>
    obtain ⟨g, u⟩ := q
    have hg : ∀ p ∈ extra, g ≠ p.1 :=
      fun p hp => Ne.symm (h p hp ⟨g, u⟩ (List.mem_cons_self _ _))
    have hrest : ∀ p ∈ extra, ∀ q ∈ rest, p.1 ≠ q.1 :=
      fun p hp q hq => h p hp q (List.mem_cons_of_mem _ hq)
    cases hc : lookupField fields g with
    | none =>
      simp [checkTypes, pyContains, lookupField_extend fields extra g hg, hc,
        Except.bind, ih hrest]
    | some w =>
      simp [checkTypes, pyContains, pyIndex, lookupField_extend fields extra g hg, hc,
        Except.bind, ih hrest]

/-- C1: for every list of required field names and every data object, when
one or more required fields are absent from the data, `validate_payload`
returns the error body listing all missing field names, comma-joined, in
the order given in the required-fields list; and POST /entry with body
`\x7b\x7d` answers 400 with message "Missing required fields: slug". -/
theorem claim1_missing_fields_all_listed (required : List String)
    (fields : List (String × Json)) (ftypes : List (String × PType))
    (h : required.filter (fun f => (lookupField fields f).isNone) ≠ []) :
    validate_payload required (Json.obj fields) ftypes =
      .ok (some (errResp ("Missing required fields: " ++
        String.intercalate ", " (required.filter fun f => (lookupField fields f).isNone)))) ∧
    entry (.ok (Json.obj [])) = .response (errResp "Missing required fields: slug") 400 := by
  refine ⟨?_, rfl⟩
  rw [validate_payload_obj, if_neg h]

/-- Witness for C1 at POST /entry with body `\x7b\x7d`. -/
theorem claim1_missing_fields_all_listed_witness :
    entry (.ok (Json.obj [])) = .response (errResp "Missing required fields: slug") 400 :=
  (claim1_missing_fields_all_listed ["slug"] [] [("slug", PType.str)] (by decide)).2

/-- C2: with no missing required fields, `validate_payload` type-checks only
fields present in the data (absent optional fields are never checked) and
fails on the first mismatch with the error body naming that field and the
expected type; POST /entry with `\x7b"slug": 123\x7d` answers 400 with
message Field "slug" must be of type str without reaching the backend. -/
theorem claim2_first_type_mismatch (required : List String)
    (fields : List (String × Json)) (pre post : List (String × PType))
    (f : String) (t : PType) (v : Json)
    (hreq : ∀ r ∈ required, (lookupField fields r).isNone = false)
    (hpre : ∀ p ∈ pre, ∀ w, lookupField fields p.1 = some w → isinstance w p.2 = true)
    (hv : lookupField fields f = some v) (hbad : isinstance v t = false) :
    validate_payload required (Json.obj fields) (pre ++ (f, t) :: post) =
      .ok (some (errResp ("Field \"" ++ f ++ "\" must be of type " ++ t.pyName))) ∧
    entry (.ok (Json.obj [("slug", Json.int 123)])) =
      .response (errResp "Field \"slug\" must be of type str") 400 := by
  refine ⟨?_, rfl⟩
  have hm : (required.filter fun r => (lookupField fields r).isNone) = [] :=
    List.filter_eq_nil_iff.mpr fun r hr => by simp [hreq r hr]
  rw [validate_payload_obj, hm, if_pos rfl,
    checkTypes_first_mismatch fields pre post f t v hpre hv hbad]

/-- Witness for C2 at the entry payload `\x7b"slug": 123\x7d`. -/
theorem claim2_first_type_mismatch_witness :
    validate_payload [] (Json.obj [("slug", Json.int 123)]) [("slug", PType.str)] =
      .ok (some (errResp "Field \"slug\" must be of type str")) :=
  (claim2_first_type_mismatch [] [("slug", Json.int 123)] [] [] "slug" PType.str
    (Json.int 123) (by simp) (by simp) rfl rfl).1

/-- C3: POST /search with body `\x7b\x7d` passes validation and calls the
catalog search with defaults applied: search_key and rom_id None, platforms
and regions empty lists, max_results 100, page 1; whatever the catalog
returns is the 200 response body, unmodified. -/
theorem claim3_search_empty_defaults :
    validate_payload [] (Json.obj []) searchFieldTypes = .ok none ∧
    ∀ api : ApiCall → Json, runHandler api false (search (.ok (Json.obj []))) =
      .ok (api (ApiCall.getSearch Json.null (Json.arr []) (Json.arr []) Json.null
        (Json.int 100) (Json.int 1)), 200) :=
  ⟨rfl, fun _ => rfl⟩

/-- C4: for POST /search and POST /entry, an unparseable body answers 400
with exactly "Malformed JSON in request body", directly, with neither
validation nor a backend call. -/
theorem claim4_malformed_json :
    search (.error ()) = .response (errResp "Malformed JSON in request body") 400 ∧
    entry (.error ()) = .response (errResp "Malformed JSON in request body") 400 :=
  ⟨rfl, rfl⟩

/-- C6: the global error handler maps every failure to its declared status
code when present, with the body carrying the standard phrase for that
status; a failure with no declared status maps to 500 (in production mode,
with the 500 phrase as body). -/
theorem claim6_error_status_mapping :
    (∀ (debug : Bool) (e : PyExc) (c : Nat) (p : String),
      e.code = some c → c ≠ 500 → httpStatusPhrase c = some p →
      handle_error debug e = .ok (build_response (Json.obj [("error", Json.str p)]), c)) ∧
    (∀ e : PyExc, e.code = none →
      handle_error false e =
        .ok (build_response (Json.obj [("error", Json.str "Internal Server Error")]), 500)) := by
  constructor
  · intro debug e c p hc h500 hp
    have hb : (c == 500) = false := by simp [h500]
    simp [handle_error, hc, hb, hp]
  · intro e hc
    have hp : httpStatusPhrase 500 = some "Internal Server Error" := rfl
    simp [handle_error, hc, hp]

/-- Witness for C6 at a 404 failure. -/
theorem claim6_error_status_mapping_witness :
    handle_error false { name := "NotFound", msg := "nf", code := some 404 } =
      .ok (build_response (Json.obj [("error", Json.str "Not Found")]), 404) :=
  claim6_error_status_mapping.1 false _ 404 "Not Found" rfl (by decide) rfl

/-- C7: in production mode, any two failures mapping to status 500 produce
the same client-visible response, namely exactly the body
`\x7b"error": "Internal Server Error"\x7d` with status 500 — no exception
text reaches the client. -/
theorem claim7_internal_error_uniform (e1 e2 : PyExc)
    (h1 : e1.code.getD 500 = 500) (h2 : e2.code.getD 500 = 500) :
    handle_error false e1 = handle_error false e2 ∧
    handle_error false e1 =
      .ok (build_response (Json.obj [("error", Json.str "Internal Server Error")]), 500) := by
  have hp : httpStatusPhrase 500 = some "Internal Server Error" := rfl
  have k1 : handle_error false e1 =
      .ok (build_response (Json.obj [("error", Json.str "Internal Server Error")]), 500) := by
    simp [handle_error, h1, hp]
  have k2 : handle_error false e2 =
      .ok (build_response (Json.obj [("error", Json.str "Internal Server Error")]), 500) := by
    simp [handle_error, h2, hp]
  exact ⟨k1.trans k2.symm, k1⟩

/-- Witness for C7: a codeless TypeError and an explicit 500 with different
exception text give identical responses. -/
theorem claim7_internal_error_uniform_witness :
    handle_error false { name := "TypeError", msg := "boom", code := none } =
      handle_error false { name := "RuntimeError", msg := "other detail", code := some 500 } :=
  (claim7_internal_error_uniform
    { name := "TypeError", msg := "boom", code := none }
    { name := "RuntimeError", msg := "other detail", code := some 500 } rfl rfl).1

/-- C8: extending the data object with fields whose keys are neither
required nor typed never changes the result of `validate_payload`: unknown
fields are ignored, not rejected. -/
theorem claim8_unknown_fields_ignored (required : List String)
    (fields extra : List (String × Json)) (ftypes : List (String × PType))
    (h : ∀ p ∈ extra, p.1 ∉ required ∧ ∀ q ∈ ftypes, p.1 ≠ q.1) :
    validate_payload required (Json.obj (fields ++ extra)) ftypes =
      validate_payload required (Json.obj fields) ftypes := by
  have hfilter : (required.filter fun f => (lookupField (fields ++ extra) f).isNone) =
      (required.filter fun f => (lookupField fields f).isNone) := by
    apply List.filter_congr
    intro r hr
    have hk : ∀ p ∈ extra, r ≠ p.1 := fun p hp e => (h p hp).1 (e ▸ hr)
    rw [lookupField_extend fields extra r hk]
  have hct := checkTypes_extend fields extra ftypes fun p hp => (h p hp).2
  rw [validate_payload_obj, validate_payload_obj, hfilter, hct]

/-- Witness for C8: adding an unknown field to a valid entry payload. -/
theorem claim8_unknown_fields_ignored_witness :
    validate_payload ["slug"]
        (Json.obj ([("slug", Json.str "x")] ++ [("extra_field", Json.int 7)]))
        [("slug", PType.str)] =
      validate_payload ["slug"] (Json.obj [("slug", Json.str "x")]) [("slug", PType.str)] :=
  claim8_unknown_fields_ignored ["slug"] [("slug", Json.str "x")]
    [("extra_field", Json.int 7)] [("slug", PType.str)] (by decide)

/-- C9: missing-field detection looks only at key membership, never at the
value, so a required field set to JSON null counts as present; POST /entry
with `\x7b"slug": null\x7d` is not reported missing but fails the type
check with Field "slug" must be of type str and status 400. -/
theorem claim9_null_counts_present :
    (∀ (required : List String) (fields : List (String × Json)),
      listMissing required (Json.obj fields) =
        .ok (required.filter fun f => (lookupField fields f).isNone)) ∧
    entry (.ok (Json.obj [("slug", Json.null)])) =
      .response (errResp "Field \"slug\" must be of type str") 400 :=
  ⟨listMissing_obj, rfl⟩

/-- C10: a body parsing to a JSON array none of whose elements is one of the
typed field names passes `validate_payload` (there are no required fields
and the membership tests find nothing), then the field extraction raises,
so the client receives 500 with body
`\x7b"error": "Internal Server Error"\x7d` instead of a 400. -/
theorem claim10_array_body_500 (elems : List Json) (api : ApiCall → Json)
    (h : ∀ fname ∈ searchFieldTypes.map Prod.fst, arrContainsStr elems fname = false) :
    validate_payload [] (Json.arr elems) searchFieldTypes = .ok none ∧
    runHandler api false (search (.ok (Json.arr elems))) =
      .ok (build_response (Json.obj [("error", Json.str "Internal Server Error")]), 500) := by
  have h1 := h "search_key" (by simp [searchFieldTypes])
  have h2 := h "platforms" (by simp [searchFieldTypes])
  have h3 := h "regions" (by simp [searchFieldTypes])
  have h4 := h "rom_id" (by simp [searchFieldTypes])
  have h5 := h "max_results" (by simp [searchFieldTypes])
  have h6 := h "page" (by simp [searchFieldTypes])
  have hval : validate_payload [] (Json.arr elems) searchFieldTypes = .ok none := by
    simp [validate_payload, listMissing, checkTypes, pyContains, Except.bind,
      searchFieldTypes, h1, h2, h3, h4, h5, h6]
  refine ⟨hval, ?_⟩
  have hp : httpStatusPhrase 500 = some "Internal Server Error" := rfl
  simp [search, runHandler, hval, searchExtract, dictGet, handle_error, hp]

/-- Witness for C10 at the empty array body. -/
theorem claim10_array_body_500_witness :
    validate_payload [] (Json.arr []) searchFieldTypes = .ok none ∧
    runHandler (fun _ => Json.null) false (search (.ok (Json.arr []))) =
      .ok (build_response (Json.obj [("error", Json.str "Internal Server Error")]), 500) :=
  claim10_array_body_500 [] (fun _ => Json.null) (by decide)

end Crocdb
